import Mathlib

/-!
# Verification of the argus HR backend (ruziba3vich/argus)

Shallow embedding of the repository's Go source:

* `internal/pkg/helper/helper.go` — `ValidatePhoneNumber`;
* `internal/pkg/token/token.go` — `ParseJwtToken` error classification;
* `api/middleware` — `AuthContext` middleware;
* the six entity repositories (`users`, `tasks`, `attendances`, `salaries`,
  `bonuses`, `files`) from `internal/service` — `Get`, `List`, `Update`;
* `internal/https/handler.go` — the `updateUser` HTTP handler.

Modelling conventions:

* `time.Time` instants are abstract `Nat` values; `time.Now().UTC()` becomes an
  explicit `now : Nat` parameter.
* `int64` values are `Int`; `float64` monetary amounts are modelled as an
  abstract numeric scalar `Int` (no verified property computes with amounts).
* Go `nil`-able pointer fields are `Option` values; fallible operations return
  `Except RepoError`.
* The relational table is a `List` of row structures; an SQL
  `UPDATE ... SET ... WHERE id = $1` is the pointwise application of the
  built column/value set to every row whose `id` matches; a transaction whose
  `RowsAffected() == 0` branch returns an error is rolled back, so the table is
  unchanged on every error path, exactly as in the source.
* Strings are compared character-wise; all concrete inputs used in theorems are
  ASCII, where Go's byte-wise `len`/slicing agrees with the character model.
-/

namespace Argus

/-- Characters `0`-`9`, as used by Go `strconv.ParseInt` in base 10. -/
def goIsDigit (c : Char) : Bool := '0' ≤ c && c ≤ '9'

/-- Model of Go `strconv.Atoi` success (= `strconv.ParseInt(s, 10, 0)`):
an optional single leading `+` or `-` sign followed by at least one decimal
digit.  Base 10 is explicit in `ParseInt`, so digit-group underscores are not
accepted.  Overflow is not modelled: every string this development feeds to it
has at most nine digits, far below the `int64` range. -/
def atoiOk (s : List Char) : Bool :=
  match s with
  | [] => false
  | c :: rest =>
    if c = '+' || c = '-' then !rest.isEmpty && rest.all goIsDigit
    else s.all goIsDigit

/-- Embedding of `helper.ValidatePhoneNumber` (`internal/pkg/helper/helper.go`
lines 42-60): length must be 13, the first four characters must be `+998`, and
`strconv.Atoi` must accept the remainder. -/
def validatePhoneNumber (phoneNumber : String) : Bool :=
  let cs := phoneNumber.toList
  if cs.length ≠ 13 then false
  else if cs.take 4 ≠ "+998".toList then false
  else atoiOk (cs.drop 4)

/-- Spec-side reading of the phone check used by claim C10: a 13-character
string starting with `+998` whose remaining 9 characters are either all digits,
or a `+`/`-` sign followed by 8 digits. -/
def phoneSpecC10 (s : String) : Prop :=
  let cs := s.toList
  cs.length = 13 ∧ cs.take 4 = "+998".toList ∧
    (cs.drop 4 ≠ [] ∧
      ((cs.drop 4).all goIsDigit = true ∨
        (∃ c rest, cs.drop 4 = c :: rest ∧ (c = '+' ∨ c = '-') ∧ rest ≠ [] ∧
          rest.all goIsDigit = true)))

/-- Containment of one character list inside another (model of Go
`strings.Contains` and of the SQL `%...%` wildcard pair). -/
def subOf (needle hay : List Char) : Bool :=
  hay.tails.any (fun t => needle.isPrefixOf t)

/-- Case-insensitive containment test: the model of the SQL
`col ILIKE '%search%'` predicate built by every repository `List`. -/
def containsCI (hay needle : String) : Bool :=
  subOf (needle.toList.map Char.toLower) (hay.toList.map Char.toLower)

/-- Comparator for `ORDER BY k DESC`. -/
def descBy (k : α → Nat) (a b : α) : Prop := k b ≤ k a

instance (k : α → Nat) : DecidableRel (descBy k) := fun a b => by
  unfold descBy; infer_instance

/-- Comparator for `ORDER BY k1 DESC, k2 DESC`. -/
def descBy2 (k1 k2 : α → Nat) (a b : α) : Prop :=
  k1 b < k1 a ∨ (k1 b = k1 a ∧ k2 b ≤ k2 a)

instance (k1 k2 : α → Nat) : DecidableRel (descBy2 k1 k2) := fun a b => by
  unfold descBy2; infer_instance

instance (k : α → Nat) : IsTotal α (descBy k) :=
  ⟨fun a b => le_total (k b) (k a)⟩

instance (k : α → Nat) : IsTrans α (descBy k) :=
  ⟨fun _ _ _ h1 h2 => le_trans h2 h1⟩

instance (k1 k2 : α → Nat) : IsTotal α (descBy2 k1 k2) :=
  ⟨fun a b => by
    rcases lt_trichotomy (k1 a) (k1 b) with h | h | h
    · exact Or.inr (Or.inl h)
    · rcases le_total (k2 b) (k2 a) with h2 | h2
      · exact Or.inl (Or.inr ⟨h.symm, h2⟩)
      · exact Or.inr (Or.inr ⟨h, h2⟩)
    · exact Or.inl (Or.inl h)⟩

instance (k1 k2 : α → Nat) : IsTrans α (descBy2 k1 k2) :=
  ⟨fun _ _ _ h1 h2 => by
    rcases h1 with h1 | ⟨h1e, h1le⟩ <;> rcases h2 with h2 | ⟨h2e, h2le⟩
    · exact Or.inl (lt_trans h2 h1)
    · exact Or.inl (h2e ▸ h1)
    · exact Or.inl (h1e ▸ h2)
    · exact Or.inr ⟨h2e.trans h1e, le_trans h2le h1le⟩⟩

/-- Deterministic model of an SQL `ORDER BY k DESC`. -/
def sortDesc (k : α → Nat) (l : List α) : List α := l.insertionSort (descBy k)

/-- Deterministic model of an SQL `ORDER BY k1 DESC, k2 DESC`. -/
def sortDesc2 (k1 k2 : α → Nat) (l : List α) : List α :=
  l.insertionSort (descBy2 k1 k2)

/-- Error taxonomy of the repository layer.  Each constructor corresponds to a
distinct `fmt.Errorf` message in the source (§7 of the spec):
`filterRequired` = "at least one filter parameter is required",
`idRequired` = "<entity> ID is required for update",
`invalidPhone` = "invalid phone number format",
`noFieldsToUpdate` = "no fields to update",
`notFound id` = "no <entity> found with ID %d",
`noRows` = `pgx.ErrNoRows` surfaced by a `Get` that matched nothing. -/
inductive RepoError
  | filterRequired
  | idRequired
  | invalidPhone
  | noFieldsToUpdate
  | notFound (id : Int)
  | noRows
deriving DecidableEq, Repr

deriving instance DecidableEq for Except

/-- One optional-field contribution to an update column set. -/
def optC (o : Option α) (f : α → κ) : List κ :=
  match o with
  | some v => [f v]
  | none => []

/-! ## Users (`src/unnamed/part_005`, `userRepo`) -/

/-- A persisted `users` row (`entity.User`). -/
structure UserRow where
  id : Int
  first_name : String
  last_name : String
  role : String
  email : String
  phone : String
  photo_url : Option String
  bio : Option String
  hashed_password : String
  hashed_refresh_token : Option String
  created_at : Nat
  updated_at : Nat
deriving DecidableEq, Repr

/-- Embedding of `entity.UpdateUserRequest`: pointer fields become `Option`. -/
structure UpdateUserRequest where
  id : Int
  first_name : Option String := none
  last_name : Option String := none
  role : Option String := none
  email : Option String := none
  phone : Option String := none
  photo_url : Option String := none
  bio : Option String := none
  hashed_password : Option String := none
  hashed_refresh_token : Option String := none
deriving DecidableEq, Repr

/-- One key/value entry of the `clauses` map built by `userRepo.Update`
(part_005 lines 289-320); the constructor tag is the column name. -/
inductive UserClause
  | updatedAt (v : Nat)
  | firstName (v : String)
  | lastName (v : String)
  | role (v : String)
  | email (v : String)
  | phone (v : String)
  | photoUrl (v : String)
  | bio (v : String)
  | hashedPassword (v : String)
  | hashedRefreshToken (v : String)
deriving DecidableEq, Repr

/-- The full `clauses` column set of `userRepo.Update`, in source order:
`updated_at` plus each non-nil optional field. -/
def userClauseList (req : UpdateUserRequest) (now : Nat) : List UserClause :=
  [.updatedAt now]
    ++ optC req.first_name .firstName
    ++ optC req.last_name .lastName
    ++ optC req.role .role
    ++ optC req.email .email
    ++ optC req.phone .phone
    ++ optC req.photo_url .photoUrl
    ++ optC req.bio .bio
    ++ optC req.hashed_password .hashedPassword
    ++ optC req.hashed_refresh_token .hashedRefreshToken

/-- Clause building of `userRepo.Update` including the inline phone check
(part_005 lines 303-308): a non-nil phone failing `ValidatePhoneNumber`
aborts before any SQL is built; otherwise the clause set is `userClauseList`.
(The Go code performs the check at the `phone` step of the same loop; the
observable outcome — either the error or the full column set — is identical.) -/
def userBuildClauses (req : UpdateUserRequest) (now : Nat) :
    Except RepoError (List UserClause) :=
  match req.phone with
  | some ph =>
    if validatePhoneNumber ph then .ok (userClauseList req now)
    else .error .invalidPhone
  | none => .ok (userClauseList req now)

/-- Effect of a single `SET column = value` on a row. -/
def userApplyClause (r : UserRow) : UserClause → UserRow
  | .updatedAt v => { r with updated_at := v }
  | .firstName v => { r with first_name := v }
  | .lastName v => { r with last_name := v }
  | .role v => { r with role := v }
  | .email v => { r with email := v }
  | .phone v => { r with phone := v }
  | .photoUrl v => { r with photo_url := some v }
  | .bio v => { r with bio := some v }
  | .hashedPassword v => { r with hashed_password := v }
  | .hashedRefreshToken v => { r with hashed_refresh_token := some v }

/-- Effect of the whole `SET` list on a row. -/
def userApplyClauses (cs : List UserClause) (r : UserRow) : UserRow :=
  cs.foldl userApplyClause r

/-- Embedding of `userRepo.Update` (part_005 lines 275-355): reject a zero id,
build the partial column set (with the phone validation), reject a column set
that only holds `updated_at`, then run the `UPDATE ... WHERE id = req.ID`
inside a transaction and report `notFound` when no row was affected (the
transaction is rolled back, leaving the table unchanged). -/
def userRepoUpdate (db : List UserRow) (req : UpdateUserRequest) (now : Nat) :
    Except RepoError (List UserRow) :=
  if req.id = 0 then .error .idRequired
  else
    match userBuildClauses req now with
    | .error e => .error e
    | .ok cs =>
      if cs.length ≤ 1 then .error .noFieldsToUpdate
      else if db.countP (fun r => r.id == req.id) = 0 then .error (.notFound req.id)
      else .ok (db.map (fun r => if r.id == req.id then userApplyClauses cs r else r))

/-- Spec-side row transformer for a partial user update (§8 of the spec):
exactly the supplied fields change, `created_at` is untouched, `updated_at`
becomes `now`.  Used to state the frame claim C1. -/
def userUpdateSpecRow (req : UpdateUserRequest) (now : Nat) (r : UserRow) : UserRow :=
  { r with
    first_name := req.first_name.getD r.first_name
    last_name := req.last_name.getD r.last_name
    role := req.role.getD r.role
    email := req.email.getD r.email
    phone := req.phone.getD r.phone
    photo_url := (req.photo_url.map some).getD r.photo_url
    bio := (req.bio.map some).getD r.bio
    hashed_password := req.hashed_password.getD r.hashed_password
    hashed_refresh_token := (req.hashed_refresh_token.map some).getD r.hashed_refresh_token
    updated_at := now }

/-! ## Tasks (`internal/service/task.go`, `taskRepo`) -/

/-- A persisted `tasks` row (`entity.Task`). -/
structure TaskRow where
  id : Int
  assignedto : Option Int
  admin_id : Int
  title : String
  description : Option String
  status : String
  priority : String
  duedate : Option Nat
  created_at : Nat
  updated_at : Nat
deriving DecidableEq, Repr

/-- Embedding of `entity.UpdateTaskRequest`. -/
structure UpdateTaskRequest where
  id : Int
  assigned_to : Option Int := none
  admin_id : Option Int := none
  title : Option String := none
  description : Option String := none
  status : Option String := none
  priority : Option String := none
  due_date : Option Nat := none
deriving DecidableEq, Repr

/-- One entry of the `clauses` map built by `taskRepo.Update`
(task.go lines 298-320). -/
inductive TaskClause
  | updatedAt (v : Nat)
  | assignedTo (v : Int)
  | adminId (v : Int)
  | title (v : String)
  | description (v : String)
  | status (v : String)
  | priority (v : String)
  | dueDate (v : Nat)
deriving DecidableEq, Repr

/-- The `clauses` column set of `taskRepo.Update`, in source order. -/
def taskClauseList (req : UpdateTaskRequest) (now : Nat) : List TaskClause :=
  [.updatedAt now]
    ++ optC req.assigned_to .assignedTo
    ++ optC req.admin_id .adminId
    ++ optC req.title .title
    ++ optC req.description .description
    ++ optC req.status .status
    ++ optC req.priority .priority
    ++ optC req.due_date .dueDate

/-- Effect of a single `SET` entry on a task row. -/
def taskApplyClause (r : TaskRow) : TaskClause → TaskRow
  | .updatedAt v => { r with updated_at := v }
  | .assignedTo v => { r with assignedto := some v }
  | .adminId v => { r with admin_id := v }
  | .title v => { r with title := v }
  | .description v => { r with description := some v }
  | .status v => { r with status := v }
  | .priority v => { r with priority := v }
  | .dueDate v => { r with duedate := some v }

/-- Effect of the whole `SET` list on a task row. -/
def taskApplyClauses (cs : List TaskClause) (r : TaskRow) : TaskRow :=
  cs.foldl taskApplyClause r

/-- Embedding of `taskRepo.Update` (task.go lines 284-355): zero id rejected,
`len(clauses) < 2` means no field besides `updated_at` and is rejected, then
the `UPDATE ... WHERE id = req.ID` runs and zero affected rows yields
`notFound` with the transaction rolled back. -/
def taskRepoUpdate (db : List TaskRow) (req : UpdateTaskRequest) (now : Nat) :
    Except RepoError (List TaskRow) :=
  if req.id = 0 then .error .idRequired
  else
    let cs := taskClauseList req now
    if cs.length < 2 then .error .noFieldsToUpdate
    else if db.countP (fun r => r.id == req.id) = 0 then .error (.notFound req.id)
    else .ok (db.map (fun r => if r.id == req.id then taskApplyClauses cs r else r))

/-- Spec-side row transformer for a partial task update: exactly the supplied
fields change, `created_at` is untouched, `updated_at` becomes `now`. -/
def taskUpdateSpecRow (req : UpdateTaskRequest) (now : Nat) (r : TaskRow) : TaskRow :=
  { r with
    assignedto := (req.assigned_to.map some).getD r.assignedto
    admin_id := req.admin_id.getD r.admin_id
    title := req.title.getD r.title
    description := (req.description.map some).getD r.description
    status := req.status.getD r.status
    priority := req.priority.getD r.priority
    duedate := (req.due_date.map some).getD r.duedate
    updated_at := now }

/-! ## Attendances (`internal/service/attendance.go`, `attendanceRepo`) -/

/-- A persisted `attendances` row (`entity.Attendance`); `date`, `intime` and
`outtime` are abstract instants. -/
structure AttendanceRow where
  id : Int
  user_id : Int
  date : Nat
  intime : Nat
  outtime : Option Nat
  status : String
  created_at : Nat
  updated_at : Nat
deriving DecidableEq, Repr

/-- Embedding of `entity.UpdateAttendanceRequest`. -/
structure UpdateAttendanceRequest where
  id : Int
  user_id : Option Int := none
  date : Option Nat := none
  in_time : Option Nat := none
  out_time : Option Nat := none
  status : Option String := none
deriving DecidableEq, Repr

/-- One entry of the `clauses` map built by `attendanceRepo.Update`
(attendance.go lines 253-278).  `outTime none` is the explicit
`clauses["outtime"] = nil`, i.e. `SET outtime = NULL`. -/
inductive AttendanceClause
  | updatedAt (v : Nat)
  | userId (v : Int)
  | date (v : Nat)
  | inTime (v : Nat)
  | outTime (v : Option Nat)
  | status (v : String)
deriving DecidableEq, Repr

/-- The `clauses` column set of `attendanceRepo.Update`, in source order.
Unlike every other repository, the `outtime` column is ALWAYS present: the
request value when non-nil, otherwise an explicit NULL (attendance.go lines
265-275). -/
def attendanceClauseList (req : UpdateAttendanceRequest) (now : Nat) :
    List AttendanceClause :=
  [.updatedAt now]
    ++ optC req.user_id .userId
    ++ optC req.date .date
    ++ optC req.in_time .inTime
    ++ [.outTime req.out_time]
    ++ optC req.status .status

/-- Model of the Go test `clauses["outtime"] == nil` (attendance.go line 280):
true when the `outtime` entry is absent or holds a nil value. -/
def attendanceOuttimeNil (cs : List AttendanceClause) : Bool :=
  match cs.find? (fun c => match c with | .outTime _ => true | _ => false) with
  | some (.outTime (some _)) => false
  | some (.outTime none) => true
  | some _ => true
  | none => true

/-- Effect of a single `SET` entry on an attendance row. -/
def attendanceApplyClause (r : AttendanceRow) : AttendanceClause → AttendanceRow
  | .updatedAt v => { r with updated_at := v }
  | .userId v => { r with user_id := v }
  | .date v => { r with date := v }
  | .inTime v => { r with intime := v }
  | .outTime v => { r with outtime := v }
  | .status v => { r with status := v }

/-- Effect of the whole `SET` list on an attendance row. -/
def attendanceApplyClauses (cs : List AttendanceClause) (r : AttendanceRow) :
    AttendanceRow :=
  cs.foldl attendanceApplyClause r

/-- Embedding of `attendanceRepo.Update` (attendance.go lines 239-313).  The
degenerate-update guard is the literal Go condition
`len(clauses) < 2 && (req.OutTime == nil && clauses["outtime"] == nil)`
(line 280); since `outtime` is always inserted, `len(clauses) >= 2` and the
guard can never fire. -/
def attendanceRepoUpdate (db : List AttendanceRow) (req : UpdateAttendanceRequest)
    (now : Nat) : Except RepoError (List AttendanceRow) :=
  if req.id = 0 then .error .idRequired
  else
    let cs := attendanceClauseList req now
    if cs.length < 2 && (req.out_time.isNone && attendanceOuttimeNil cs) then
      .error .noFieldsToUpdate
    else if db.countP (fun r => r.id == req.id) = 0 then .error (.notFound req.id)
    else .ok (db.map (fun r => if r.id == req.id then attendanceApplyClauses cs r else r))

/-- Row transformer actually realised by `attendanceRepo.Update`: supplied
fields change, `updated_at` becomes `now`, and `outtime` is OVERWRITTEN with
the request value — NULL when the request omits it. -/
def attendanceUpdateSpecRow (req : UpdateAttendanceRequest) (now : Nat)
    (r : AttendanceRow) : AttendanceRow :=
  { r with
    user_id := req.user_id.getD r.user_id
    date := req.date.getD r.date
    intime := req.in_time.getD r.intime
    outtime := req.out_time
    status := req.status.getD r.status
    updated_at := now }

/-! ## Salaries (`internal/service/salary.go`, `salaryRepo`) -/

/-- A persisted `salaries` row (`entity.Salary`); the `float64` amount is an
abstract numeric scalar. -/
structure SalaryRow where
  id : Int
  amount : Int
  user_id : Int
  admin_id : Int
  updateradminid : Option Int
  pay_date : Nat
  currency : String
  status : String
  created_at : Nat
  updated_at : Nat
deriving DecidableEq, Repr

/-- Embedding of `entity.UpdateSalaryRequest`. -/
structure UpdateSalaryRequest where
  id : Int
  amount : Option Int := none
  user_id : Option Int := none
  admin_id : Option Int := none
  updater_admin_id : Option Int := none
  pay_date : Option Nat := none
  currency : Option String := none
  status : Option String := none
deriving DecidableEq, Repr

/-- One entry of the `clauses` map built by `salaryRepo.Update`. -/
inductive SalaryClause
  | updatedAt (v : Nat)
  | amount (v : Int)
  | userId (v : Int)
  | adminId (v : Int)
  | updaterAdminId (v : Int)
  | payDate (v : Nat)
  | currency (v : String)
  | status (v : String)
deriving DecidableEq, Repr

/-- The `clauses` column set of `salaryRepo.Update`, in source order. -/
def salaryClauseList (req : UpdateSalaryRequest) (now : Nat) : List SalaryClause :=
  [.updatedAt now]
    ++ optC req.amount .amount
    ++ optC req.user_id .userId
    ++ optC req.admin_id .adminId
    ++ optC req.updater_admin_id .updaterAdminId
    ++ optC req.pay_date .payDate
    ++ optC req.currency .currency
    ++ optC req.status .status

/-- Effect of a single `SET` entry on a salary row. -/
def salaryApplyClause (r : SalaryRow) : SalaryClause → SalaryRow
  | .updatedAt v => { r with updated_at := v }
  | .amount v => { r with amount := v }
  | .userId v => { r with user_id := v }
  | .adminId v => { r with admin_id := v }
  | .updaterAdminId v => { r with updateradminid := some v }
  | .payDate v => { r with pay_date := v }
  | .currency v => { r with currency := v }
  | .status v => { r with status := v }

/-- Effect of the whole `SET` list on a salary row. -/
def salaryApplyClauses (cs : List SalaryClause) (r : SalaryRow) : SalaryRow :=
  cs.foldl salaryApplyClause r

/-- Embedding of `salaryRepo.Update` (salary.go lines 243-310). -/
def salaryRepoUpdate (db : List SalaryRow) (req : UpdateSalaryRequest) (now : Nat) :
    Except RepoError (List SalaryRow) :=
  if req.id = 0 then .error .idRequired
  else
    let cs := salaryClauseList req now
    if cs.length < 2 then .error .noFieldsToUpdate
    else if db.countP (fun r => r.id == req.id) = 0 then .error (.notFound req.id)
    else .ok (db.map (fun r => if r.id == req.id then salaryApplyClauses cs r else r))

/-- Spec-side row transformer for a partial salary update. -/
def salaryUpdateSpecRow (req : UpdateSalaryRequest) (now : Nat) (r : SalaryRow) :
    SalaryRow :=
  { r with
    amount := req.amount.getD r.amount
    user_id := req.user_id.getD r.user_id
    admin_id := req.admin_id.getD r.admin_id
    updateradminid := (req.updater_admin_id.map some).getD r.updateradminid
    pay_date := req.pay_date.getD r.pay_date
    currency := req.currency.getD r.currency
    status := req.status.getD r.status
    updated_at := now }

/-! ## Bonuses (`src/unnamed/part_005`, `bonusesRepo`) -/

/-- A persisted `bonuses` row (`entity.Bonus`). -/
structure BonusRow where
  id : Int
  superadminid : Option Int
  user_id : Int
  amount : Int
  currency : String
  reason : Option String
  created_at : Nat
  updated_at : Nat
deriving DecidableEq, Repr

/-- Embedding of `entity.UpdateBonusRequest`. -/
structure UpdateBonusRequest where
  id : Int
  super_admin_id : Option Int := none
  user_id : Option Int := none
  amount : Option Int := none
  currency : Option String := none
  reason : Option String := none
deriving DecidableEq, Repr

/-- One entry of the `clauses` map built by `bonusesRepo.Update`. -/
inductive BonusClause
  | updatedAt (v : Nat)
  | superAdminId (v : Int)
  | userId (v : Int)
  | amount (v : Int)
  | currency (v : String)
  | reason (v : String)
deriving DecidableEq, Repr

/-- The `clauses` column set of `bonusesRepo.Update`, in source order. -/
def bonusClauseList (req : UpdateBonusRequest) (now : Nat) : List BonusClause :=
  [.updatedAt now]
    ++ optC req.super_admin_id .superAdminId
    ++ optC req.user_id .userId
    ++ optC req.amount .amount
    ++ optC req.currency .currency
    ++ optC req.reason .reason

/-- Effect of a single `SET` entry on a bonus row. -/
def bonusApplyClause (r : BonusRow) : BonusClause → BonusRow
  | .updatedAt v => { r with updated_at := v }
  | .superAdminId v => { r with superadminid := some v }
  | .userId v => { r with user_id := v }
  | .amount v => { r with amount := v }
  | .currency v => { r with currency := v }
  | .reason v => { r with reason := some v }

/-- Effect of the whole `SET` list on a bonus row. -/
def bonusApplyClauses (cs : List BonusClause) (r : BonusRow) : BonusRow :=
  cs.foldl bonusApplyClause r

/-- Embedding of `bonusesRepo.Update` (part_005 lines 652-717). -/
def bonusRepoUpdate (db : List BonusRow) (req : UpdateBonusRequest) (now : Nat) :
    Except RepoError (List BonusRow) :=
  if req.id = 0 then .error .idRequired
  else
    let cs := bonusClauseList req now
    if cs.length ≤ 1 then .error .noFieldsToUpdate
    else if db.countP (fun r => r.id == req.id) = 0 then .error (.notFound req.id)
    else .ok (db.map (fun r => if r.id == req.id then bonusApplyClauses cs r else r))

/-- Spec-side row transformer for a partial bonus update. -/
def bonusUpdateSpecRow (req : UpdateBonusRequest) (now : Nat) (r : BonusRow) :
    BonusRow :=
  { r with
    superadminid := (req.super_admin_id.map some).getD r.superadminid
    user_id := req.user_id.getD r.user_id
    amount := req.amount.getD r.amount
    currency := req.currency.getD r.currency
    reason := (req.reason.map some).getD r.reason
    updated_at := now }

/-! ## Files (`internal/service/file.go`, `fileRepo`) -/

/-- A persisted `files` row (`entity.File`). -/
structure FileRow where
  id : Int
  name : String
  taskid : Option Int
  created_at : Nat
  updated_at : Nat
deriving DecidableEq, Repr

/-- Embedding of `entity.UpdateFileRequest`. -/
structure UpdateFileRequest where
  id : Int
  name : Option String := none
  task_id : Option Int := none
deriving DecidableEq, Repr

/-- One entry of the `clauses` map built by `fileRepo.Update`. -/
inductive FileClause
  | updatedAt (v : Nat)
  | name (v : String)
  | taskId (v : Int)
deriving DecidableEq, Repr

/-- The `clauses` column set of `fileRepo.Update`, in source order (the `else`
branch for a nil `TaskID` holds only comments and adds nothing). -/
def fileClauseList (req : UpdateFileRequest) (now : Nat) : List FileClause :=
  [.updatedAt now]
    ++ optC req.name .name
    ++ optC req.task_id .taskId

/-- Effect of a single `SET` entry on a file row. -/
def fileApplyClause (r : FileRow) : FileClause → FileRow
  | .updatedAt v => { r with updated_at := v }
  | .name v => { r with name := v }
  | .taskId v => { r with taskid := some v }

/-- Effect of the whole `SET` list on a file row. -/
def fileApplyClauses (cs : List FileClause) (r : FileRow) : FileRow :=
  cs.foldl fileApplyClause r

/-- Embedding of `fileRepo.Update` (file.go lines 228-280). -/
def fileRepoUpdate (db : List FileRow) (req : UpdateFileRequest) (now : Nat) :
    Except RepoError (List FileRow) :=
  if req.id = 0 then .error .idRequired
  else
    let cs := fileClauseList req now
    if cs.length ≤ 1 then .error .noFieldsToUpdate
    else if db.countP (fun r => r.id == req.id) = 0 then .error (.notFound req.id)
    else .ok (db.map (fun r => if r.id == req.id then fileApplyClauses cs r else r))

/-- Spec-side row transformer for a partial file update. -/
def fileUpdateSpecRow (req : UpdateFileRequest) (now : Nat) (r : FileRow) : FileRow :=
  { r with
    name := req.name.getD r.name
    taskid := (req.task_id.map some).getD r.taskid
    updated_at := now }

/-! ## Get and List

Each repository `Get` requires a non-empty filter map, builds one equality
`WHERE` clause per key, runs `QueryRow` and surfaces `pgx.ErrNoRows` when
nothing matched; otherwise it returns the first matching row (no `ORDER BY`).

Each repository `List` builds a data query and a `COUNT(*)` query; BOTH
receive the same equality filters and (when `search` is non-empty) the same
`OR` of `ILIKE '%search%'` clauses; only the data query gets
`ORDER BY ... LIMIT ... OFFSET ...`.  A filter map is modelled as an
association list; an unknown filter column would make the SQL query fail, and
is modelled as matching no row (no claim exercises one). -/

/-- Result pair of a repository `List` (`entity.GetAll...Response`). -/
structure ListResult (ρ : Type) where
  items : List ρ
  total : Nat
deriving DecidableEq, Repr

/-- Equality constraint `key = val` on a user row, one per filter entry. -/
def userColEq (r : UserRow) (key val : String) : Bool :=
  match key with
  | "id" => toString r.id == val
  | "first_name" => r.first_name == val
  | "last_name" => r.last_name == val
  | "role" => r.role == val
  | "email" => r.email == val
  | "phone" => r.phone == val
  | "photo_url" => (match r.photo_url with | some v => v == val | none => false)
  | "bio" => (match r.bio with | some v => v == val | none => false)
  | "hashed_password" => r.hashed_password == val
  | "hashed_refresh_token" =>
    (match r.hashed_refresh_token with | some v => v == val | none => false)
  | "created_at" => toString r.created_at == val
  | "updated_at" => toString r.updated_at == val
  | _ => false

/-- Conjunction of all equality filters on a user row. -/
def userMatches (params : List (String × String)) (r : UserRow) : Bool :=
  params.all (fun kv => userColEq r kv.1 kv.2)

/-- Search clause of `userRepo.List` (part_005 lines 211-220):
`first_name`, `last_name`, `email` or `phone` `ILIKE '%search%'`. -/
def userSearch (search : String) (r : UserRow) : Bool :=
  containsCI r.first_name search || containsCI r.last_name search ||
    containsCI r.email search || containsCI r.phone search

/-- The combined row predicate shared by the data and the `COUNT(*)` query of
`userRepo.List`. -/
def userListPred (filter : List (String × String)) (search : String)
    (r : UserRow) : Bool :=
  userMatches filter r && (search == "" || userSearch search r)

/-- Embedding of `userRepo.Get` (part_005 lines 135-187). -/
def userRepoGet (db : List UserRow) (params : List (String × String)) :
    Except RepoError UserRow :=
  if params.length = 0 then .error .filterRequired
  else
    match (db.filter (userMatches params)).head? with
    | some r => .ok r
    | none => .error .noRows

/-- Embedding of `userRepo.List` (part_005 lines 189-273); data query ordered
by `created_at DESC`. -/
def userRepoList (db : List UserRow) (limit offset : Nat)
    (filter : List (String × String)) (search : String) : ListResult UserRow :=
  let matched := db.filter (userListPred filter search)
  { items := ((sortDesc (fun r => r.created_at) matched).drop offset).take limit
    total := matched.length }

/-- Equality constraint `key = val` on a task row. -/
def taskColEq (r : TaskRow) (key val : String) : Bool :=
  match key with
  | "id" => toString r.id == val
  | "assignedto" => (match r.assignedto with | some v => toString v == val | none => false)
  | "admin_id" => toString r.admin_id == val
  | "title" => r.title == val
  | "description" => (match r.description with | some v => v == val | none => false)
  | "status" => r.status == val
  | "priority" => r.priority == val
  | "duedate" => (match r.duedate with | some v => toString v == val | none => false)
  | "created_at" => toString r.created_at == val
  | "updated_at" => toString r.updated_at == val
  | _ => false

/-- Conjunction of all equality filters on a task row. -/
def taskMatches (params : List (String × String)) (r : TaskRow) : Bool :=
  params.all (fun kv => taskColEq r kv.1 kv.2)

/-- Search clause of `taskRepo.List` (task.go lines 218-227): `title`,
`description`, `status` or `priority` `ILIKE '%search%'` (a NULL description
matches nothing). -/
def taskSearch (search : String) (r : TaskRow) : Bool :=
  containsCI r.title search ||
    (match r.description with | some d => containsCI d search | none => false) ||
    containsCI r.status search || containsCI r.priority search

/-- The combined row predicate shared by the data and the `COUNT(*)` query of
`taskRepo.List`. -/
def taskListPred (filter : List (String × String)) (search : String)
    (r : TaskRow) : Bool :=
  taskMatches filter r && (search == "" || taskSearch search r)

/-- Embedding of `taskRepo.Get` (task.go lines 135-194). -/
def taskRepoGet (db : List TaskRow) (params : List (String × String)) :
    Except RepoError TaskRow :=
  if params.length = 0 then .error .filterRequired
  else
    match (db.filter (taskMatches params)).head? with
    | some r => .ok r
    | none => .error .noRows

/-- Embedding of `taskRepo.List` (task.go lines 196-282); data query ordered
by `created_at DESC`. -/
def taskRepoList (db : List TaskRow) (limit offset : Nat)
    (filter : List (String × String)) (search : String) : ListResult TaskRow :=
  let matched := db.filter (taskListPred filter search)
  { items := ((sortDesc (fun r => r.created_at) matched).drop offset).take limit
    total := matched.length }

/-- Equality constraint `key = val` on an attendance row. -/
def attendanceColEq (r : AttendanceRow) (key val : String) : Bool :=
  match key with
  | "id" => toString r.id == val
  | "user_id" => toString r.user_id == val
  | "date" => toString r.date == val
  | "intime" => toString r.intime == val
  | "outtime" => (match r.outtime with | some v => toString v == val | none => false)
  | "status" => r.status == val
  | "created_at" => toString r.created_at == val
  | "updated_at" => toString r.updated_at == val
  | _ => false

/-- Conjunction of all equality filters on an attendance row. -/
def attendanceMatches (params : List (String × String)) (r : AttendanceRow) : Bool :=
  params.all (fun kv => attendanceColEq r kv.1 kv.2)

/-- Search clause of `attendanceRepo.List` (attendance.go lines 184-192):
only `status ILIKE '%search%'`. -/
def attendanceSearch (search : String) (r : AttendanceRow) : Bool :=
  containsCI r.status search

/-- The combined row predicate shared by the data and the `COUNT(*)` query of
`attendanceRepo.List`. -/
def attendanceListPred (filter : List (String × String)) (search : String)
    (r : AttendanceRow) : Bool :=
  attendanceMatches filter r && (search == "" || attendanceSearch search r)

/-- Embedding of `attendanceRepo.Get` (attendance.go lines 113-160). -/
def attendanceRepoGet (db : List AttendanceRow) (params : List (String × String)) :
    Except RepoError AttendanceRow :=
  if params.length = 0 then .error .filterRequired
  else
    match (db.filter (attendanceMatches params)).head? with
    | some r => .ok r
    | none => .error .noRows

/-- Embedding of `attendanceRepo.List` (attendance.go lines 162-237); the data
query is ordered by `date DESC, intime DESC` (line 195), not by
`created_at`. -/
def attendanceRepoList (db : List AttendanceRow) (limit offset : Nat)
    (filter : List (String × String)) (search : String) : ListResult AttendanceRow :=
  let matched := db.filter (attendanceListPred filter search)
  { items := ((sortDesc2 (fun r => r.date) (fun r => r.intime) matched).drop offset).take limit
    total := matched.length }

/-- Equality constraint `key = val` on a salary row. -/
def salaryColEq (r : SalaryRow) (key val : String) : Bool :=
  match key with
  | "id" => toString r.id == val
  | "amount" => toString r.amount == val
  | "user_id" => toString r.user_id == val
  | "admin_id" => toString r.admin_id == val
  | "updateradminid" => (match r.updateradminid with | some v => toString v == val | none => false)
  | "pay_date" => toString r.pay_date == val
  | "currency" => r.currency == val
  | "status" => r.status == val
  | "created_at" => toString r.created_at == val
  | "updated_at" => toString r.updated_at == val
  | _ => false

/-- Conjunction of all equality filters on a salary row. -/
def salaryMatches (params : List (String × String)) (r : SalaryRow) : Bool :=
  params.all (fun kv => salaryColEq r kv.1 kv.2)

/-- Search clause of `salaryRepo.List`: `currency` or `status`
`ILIKE '%search%'`. -/
def salarySearch (search : String) (r : SalaryRow) : Bool :=
  containsCI r.currency search || containsCI r.status search

/-- The combined row predicate shared by the data and the `COUNT(*)` query of
`salaryRepo.List`. -/
def salaryListPred (filter : List (String × String)) (search : String)
    (r : SalaryRow) : Bool :=
  salaryMatches filter r && (search == "" || salarySearch search r)

/-- Embedding of `salaryRepo.Get` (salary.go lines 114-158). -/
def salaryRepoGet (db : List SalaryRow) (params : List (String × String)) :
    Except RepoError SalaryRow :=
  if params.length = 0 then .error .filterRequired
  else
    match (db.filter (salaryMatches params)).head? with
    | some r => .ok r
    | none => .error .noRows

/-- Embedding of `salaryRepo.List` (salary.go lines 166-241); data query
ordered by `created_at DESC`. -/
def salaryRepoList (db : List SalaryRow) (limit offset : Nat)
    (filter : List (String × String)) (search : String) : ListResult SalaryRow :=
  let matched := db.filter (salaryListPred filter search)
  { items := ((sortDesc (fun r => r.created_at) matched).drop offset).take limit
    total := matched.length }

/-- Equality constraint `key = val` on a bonus row. -/
def bonusColEq (r : BonusRow) (key val : String) : Bool :=
  match key with
  | "id" => toString r.id == val
  | "superadminid" => (match r.superadminid with | some v => toString v == val | none => false)
  | "user_id" => toString r.user_id == val
  | "amount" => toString r.amount == val
  | "currency" => r.currency == val
  | "reason" => (match r.reason with | some v => v == val | none => false)
  | "created_at" => toString r.created_at == val
  | "updated_at" => toString r.updated_at == val
  | _ => false

/-- Conjunction of all equality filters on a bonus row. -/
def bonusMatches (params : List (String × String)) (r : BonusRow) : Bool :=
  params.all (fun kv => bonusColEq r kv.1 kv.2)

/-- Search clause of `bonusesRepo.List` (part_005 lines 589-598): only
`reason ILIKE '%search%'` (a NULL reason matches nothing). -/
def bonusSearch (search : String) (r : BonusRow) : Bool :=
  match r.reason with | some v => containsCI v search | none => false

/-- The combined row predicate shared by the data and the `COUNT(*)` query of
`bonusesRepo.List`. -/
def bonusListPred (filter : List (String × String)) (search : String)
    (r : BonusRow) : Bool :=
  bonusMatches filter r && (search == "" || bonusSearch search r)

/-- Embedding of `bonusesRepo.Get` (part_005 lines 512-565). -/
def bonusRepoGet (db : List BonusRow) (params : List (String × String)) :
    Except RepoError BonusRow :=
  if params.length = 0 then .error .filterRequired
  else
    match (db.filter (bonusMatches params)).head? with
    | some r => .ok r
    | none => .error .noRows

/-- Embedding of `bonusesRepo.List` (part_005 lines 567-650); data query
ordered by `created_at DESC`. -/
def bonusRepoList (db : List BonusRow) (limit offset : Nat)
    (filter : List (String × String)) (search : String) : ListResult BonusRow :=
  let matched := db.filter (bonusListPred filter search)
  { items := ((sortDesc (fun r => r.created_at) matched).drop offset).take limit
    total := matched.length }

/-- Equality constraint `key = val` on a file row. -/
def fileColEq (r : FileRow) (key val : String) : Bool :=
  match key with
  | "id" => toString r.id == val
  | "name" => r.name == val
  | "taskid" => (match r.taskid with | some v => toString v == val | none => false)
  | "created_at" => toString r.created_at == val
  | "updated_at" => toString r.updated_at == val
  | _ => false

/-- Conjunction of all equality filters on a file row. -/
def fileMatches (params : List (String × String)) (r : FileRow) : Bool :=
  params.all (fun kv => fileColEq r kv.1 kv.2)

/-- Search clause of `fileRepo.List` (file.go lines 176-182): only
`name ILIKE '%search%'`. -/
def fileSearch (search : String) (r : FileRow) : Bool :=
  containsCI r.name search

/-- The combined row predicate shared by the data and the `COUNT(*)` query of
`fileRepo.List`. -/
def fileListPred (filter : List (String × String)) (search : String)
    (r : FileRow) : Bool :=
  fileMatches filter r && (search == "" || fileSearch search r)

/-- Embedding of `fileRepo.Get` (file.go lines 110-152). -/
def fileRepoGet (db : List FileRow) (params : List (String × String)) :
    Except RepoError FileRow :=
  if params.length = 0 then .error .filterRequired
  else
    match (db.filter (fileMatches params)).head? with
    | some r => .ok r
    | none => .error .noRows

/-- Embedding of `fileRepo.List` (file.go lines 154-223); data query ordered
by `created_at DESC`. -/
def fileRepoList (db : List FileRow) (limit offset : Nat)
    (filter : List (String × String)) (search : String) : ListResult FileRow :=
  let matched := db.filter (fileListPred filter search)
  { items := ((sortDesc (fun r => r.created_at) matched).drop offset).take limit
    total := matched.length }

/-! ## Token parsing (`internal/pkg/token/token.go`) -/

/-- Bit flags of `jwt.ValidationError.Errors` in `dgrijalva/jwt-go`
(`1 << iota` in declaration order). -/
def validationErrorMalformed : Nat := 1

/-- Flag: token could not be verified because of signing problems. -/
def validationErrorUnverifiable : Nat := 2

/-- Flag: signature validation failed. -/
def validationErrorSignatureInvalid : Nat := 4

/-- Flag: AUD claim validation failed. -/
def validationErrorAudience : Nat := 8

/-- Flag: EXP claim validation failed (token expired). -/
def validationErrorExpired : Nat := 16

/-- Flag: IAT claim validation failed. -/
def validationErrorIssuedAt : Nat := 32

/-- Flag: ISS claim validation failed. -/
def validationErrorIssuer : Nat := 64

/-- Flag: NBF claim validation failed (token not valid yet). -/
def validationErrorNotValidYet : Nat := 128

/-- A claim value as seen by the middleware: either a string or some
non-string JSON value (which the middleware drops). -/
inductive ClaimValue
  | str (s : String)
  | nonString
deriving DecidableEq, Repr

/-- Outcome of the underlying `jwt.Parse` call: either no error together with
the decoded claim map, or a `*jwt.ValidationError` carrying its bit flags, or
some other error value. -/
inductive JwtParseErr
  | validation (flags : Nat)
  | other
deriving DecidableEq, Repr

/-- Input to `ParseJwtToken` as produced by the jwt library. -/
structure JwtParseOutcome where
  err : Option JwtParseErr
  claims : List (String × ClaimValue)
deriving DecidableEq, Repr

/-- Result of `ParseJwtToken`: the decoded claims, or one of the two named
sentinel errors, or the wrapped generic error
(`Couldn't handle this token: ...`). -/
inductive TokenParseResult
  | ok (claims : List (String × ClaimValue))
  | malformedErr
  | expiredOrInactiveErr
  | genericErr
deriving DecidableEq, Repr

/-- Embedding of `ParseJwtToken` (token.go lines 67-92): a validation error
with the Malformed bit yields `ErrValidationErrorMalformed`; otherwise the
Expired or NotValidYet bits yield `ErrTokenExpiredOrNotValidYet`; every other
error (including an invalid signature) is wrapped generically. -/
def parseJwtToken (o : JwtParseOutcome) : TokenParseResult :=
  match o.err with
  | some (.validation flags) =>
    if flags.land validationErrorMalformed ≠ 0 then .malformedErr
    else if flags.land (validationErrorExpired ||| validationErrorNotValidYet) ≠ 0 then
      .expiredOrInactiveErr
    else .genericErr
  | some .other => .genericErr
  | none => .ok o.claims

/-! ## Auth middleware (`api/middleware`, `AuthContext`) -/

/-- The token-bearing parts of an inbound request. -/
structure AuthRequest where
  queryToken : String
  authHeader : String
deriving DecidableEq, Repr

/-- Token extraction of `AuthContext` (middleware lines 62-71): the `token`
query parameter wins; otherwise a header longer than 7 characters is used,
with its first 7 characters stripped whenever it CONTAINS `"Bearer "`
(`strings.Contains`, not a prefix test); otherwise the token stays empty. -/
def extractToken (r : AuthRequest) : String :=
  if r.queryToken.toList.length ≠ 0 then r.queryToken
  else if 7 < r.authHeader.toList.length then
    if subOf "Bearer ".toList r.authHeader.toList then
      String.mk (r.authHeader.toList.drop 7)
    else r.authHeader
  else ""

/-- What a gin middleware does with the request: hand it to the next handler
(optionally after storing auth data in the context), or abort with a status
code.  `AuthContext` only ever produces `proceed`; `abortWithStatus` is what
e.g. the `Recovery` middleware produces on a panic. -/
inductive GinStep
  | proceed (authData : Option (List (String × String)))
  | abortWithStatus (code : Nat)
deriving DecidableEq, Repr

/-- String-valued projection of a claim map (middleware lines 89-95):
non-string claim values are dropped. -/
def authDataOf (claims : List (String × ClaimValue)) : List (String × String) :=
  claims.filterMap (fun kv =>
    match kv.2 with
    | .str s => some (kv.1, s)
    | .nonString => none)

/-- Embedding of the `AuthContext` middleware (middleware lines 53-101).
`parse` is the composition of JWT decoding with `ParseJwtToken` on the
extracted token string; it is abstract here so the theorem ranges over every
possible token. -/
def authContext (parse : String → TokenParseResult) (r : AuthRequest) : GinStep :=
  let token := extractToken r
  if token = "" then .proceed none
  else
    match parse token with
    | .ok claims =>
      if claims.length ≠ 0 then .proceed (some (authDataOf claims))
      else .proceed none
    | .malformedErr => .proceed none
    | .expiredOrInactiveErr => .proceed none
    | .genericErr => .proceed none

/-! ## The `updateUser` HTTP handler (`internal/https/handler.go` 363-418) -/

/-- Modelled from the spec: `entity.GetUserRole` is called by the update
handler but its definition is not among the provided sources (only this call
site exists).  Per §3 of the spec a role is one of the strings
`admin`/`user`/`super_admin`, so the conversion is modelled as the identity on
the role string; no settled claim depends on its value, only on the fact that
its argument is the dereferenced `payload.Role` pointer. -/
def getUserRole (s : String) : String := s

/-- Embedding of `v1.UpdateUserPayload` (handler.go lines 123-132). -/
structure UpdateUserPayload where
  first_name : Option String := none
  last_name : Option String := none
  role : Option String := none
  email : Option String := none
  phone : Option String := none
  photo_url : Option String := none
  bio : Option String := none
  password : Option String := none
deriving DecidableEq, Repr

/-- ASCII whitespace as recognised by Go `strings.TrimSpace` (every input in
this development is ASCII). -/
def goIsSpace (c : Char) : Bool := c = ' ' || c = '\t' || c = '\n' || c = '\r'

/-- Model of Go `strings.TrimSpace`. -/
def goTrimSpace (s : String) : String :=
  String.mk (((s.toList.dropWhile goIsSpace).reverse.dropWhile goIsSpace).reverse)

/-- Numeric value of a digit string. -/
def digitsToNat (cs : List Char) : Nat :=
  cs.foldl (fun acc c => acc * 10 + (c.toNat - '0'.toNat)) 0

/-- Model of Go `strconv.ParseInt(s, 10, 64)` success: an optional single
sign followed by at least one decimal digit (64-bit overflow is not modelled;
every identifier in this development is tiny). -/
def parseGoInt (s : String) : Option Int :=
  match s.toList with
  | [] => none
  | '+' :: rest =>
    if !rest.isEmpty && rest.all goIsDigit then some (Int.ofNat (digitsToNat rest))
    else none
  | '-' :: rest =>
    if !rest.isEmpty && rest.all goIsDigit then some (-(Int.ofNat (digitsToNat rest)))
    else none
  | cs =>
    if cs.all goIsDigit then some (Int.ofNat (digitsToNat cs)) else none

/-- What the `updateUser` handler does: respond with an HTTP status, or panic
(a `nil`-pointer dereference escapes the handler). -/
inductive UpdateUserOutcome
  | response (httpStatus : Nat)
  | panicked
deriving DecidableEq, Repr

/-- The `entity.UpdateUserRequest` built by `updateUser` (handler.go lines
377-400): every payload field is copied through, `Role` is UNCONDITIONALLY
`&entity.GetUserRole(*payload.Role)`, and a non-nil non-empty password is
bcrypt-hashed (`hash` abstracts `bcrypt.GenerateFromPassword`, whose only
error source — entropy exhaustion — is not modelled). -/
def buildUpdateUserReq (id : Int) (p : UpdateUserPayload) (roleStr : String)
    (hash : String → String) : UpdateUserRequest :=
  { id := id
    first_name := p.first_name
    last_name := p.last_name
    role := some (getUserRole roleStr)
    email := p.email
    phone := p.phone
    photo_url := p.photo_url
    bio := p.bio
    hashed_password :=
      match p.password with
      | some pw => if pw ≠ "" then some (hash pw) else none
      | none => none
    hashed_refresh_token := none }

/-- Embedding of `userRoutes.updateUser` (handler.go lines 363-418), after a
successful JSON bind of `payload`.  The path id must parse and be positive
(else 400); then `*payload.Role` is dereferenced — a panic when the `role`
field is absent; then the repository `Update` runs and its error message is
mapped to 404 (`no user found with ID`), 400 (`no fields to update`) or 500
(anything else). -/
def updateUserHandler (db : List UserRow) (idStr : String) (p : UpdateUserPayload)
    (hash : String → String) (now : Nat) : UpdateUserOutcome × List UserRow :=
  match parseGoInt (goTrimSpace idStr) with
  | none => (.response 400, db)
  | some id =>
    if id ≤ 0 then (.response 400, db)
    else
      match p.role with
      | none => (.panicked, db)
      | some roleStr =>
        match userRepoUpdate db (buildUpdateUserReq id p roleStr hash) now with
        | .ok db2 => (.response 200, db2)
        | .error (.notFound _) => (.response 404, db)
        | .error .noFieldsToUpdate => (.response 400, db)
        | .error _ => (.response 500, db)

/-! ## Helper lemmas -/

theorem userApplyClauses_append (cs1 cs2 : List UserClause) (r : UserRow) :
    userApplyClauses (cs1 ++ cs2) r = userApplyClauses cs2 (userApplyClauses cs1 r) :=
  List.foldl_append ..

theorem userChunk_updatedAt (v : Nat) (x : UserRow) :
    userApplyClauses [.updatedAt v] x = { x with updated_at := v } := rfl

theorem userChunk_firstName (o : Option String) (x : UserRow) :
    userApplyClauses (optC o .firstName) x = { x with first_name := o.getD x.first_name } := by
  cases o <;> rfl

theorem userChunk_lastName (o : Option String) (x : UserRow) :
    userApplyClauses (optC o .lastName) x = { x with last_name := o.getD x.last_name } := by
  cases o <;> rfl

theorem userChunk_role (o : Option String) (x : UserRow) :
    userApplyClauses (optC o .role) x = { x with role := o.getD x.role } := by
  cases o <;> rfl

theorem userChunk_email (o : Option String) (x : UserRow) :
    userApplyClauses (optC o .email) x = { x with email := o.getD x.email } := by
  cases o <;> rfl

theorem userChunk_phone (o : Option String) (x : UserRow) :
    userApplyClauses (optC o .phone) x = { x with phone := o.getD x.phone } := by
  cases o <;> rfl

theorem userChunk_photoUrl (o : Option String) (x : UserRow) :
    userApplyClauses (optC o .photoUrl) x
      = { x with photo_url := (o.map some).getD x.photo_url } := by
  cases o <;> rfl

theorem userChunk_bio (o : Option String) (x : UserRow) :
    userApplyClauses (optC o .bio) x = { x with bio := (o.map some).getD x.bio } := by
  cases o <;> rfl

theorem userChunk_hashedPassword (o : Option String) (x : UserRow) :
    userApplyClauses (optC o .hashedPassword) x
      = { x with hashed_password := o.getD x.hashed_password } := by
  cases o <;> rfl

theorem userChunk_hashedRefreshToken (o : Option String) (x : UserRow) :
    userApplyClauses (optC o .hashedRefreshToken) x
      = { x with hashed_refresh_token := (o.map some).getD x.hashed_refresh_token } := by
  cases o <;> rfl

/-- Applying the full user `SET` list realises exactly the spec-side partial
update. -/
theorem userApply_spec (req : UpdateUserRequest) (now : Nat) (r : UserRow) :
    userApplyClauses (userClauseList req now) r = userUpdateSpecRow req now r := by
  simp only [userClauseList, List.append_assoc, userApplyClauses_append,
    userChunk_updatedAt, userChunk_firstName, userChunk_lastName, userChunk_role,
    userChunk_email, userChunk_phone, userChunk_photoUrl, userChunk_bio,
    userChunk_hashedPassword, userChunk_hashedRefreshToken]
  rfl

/-- A successful clause build of `userRepo.Update` yields the full column
set. -/
theorem userBuildClauses_ok {req : UpdateUserRequest} {now : Nat}
    {cs : List UserClause} (h : userBuildClauses req now = .ok cs) :
    cs = userClauseList req now := by
  unfold userBuildClauses at h
  split at h
  · split at h
    · injection h with h2
      exact h2.symm
    · cases h
  · injection h with h2
    exact h2.symm

theorem taskApplyClauses_append (cs1 cs2 : List TaskClause) (r : TaskRow) :
    taskApplyClauses (cs1 ++ cs2) r = taskApplyClauses cs2 (taskApplyClauses cs1 r) :=
  List.foldl_append ..

theorem taskChunk_updatedAt (v : Nat) (x : TaskRow) :
    taskApplyClauses [.updatedAt v] x = { x with updated_at := v } := rfl

theorem taskChunk_assignedTo (o : Option Int) (x : TaskRow) :
    taskApplyClauses (optC o .assignedTo) x
      = { x with assignedto := (o.map some).getD x.assignedto } := by
  cases o <;> rfl

theorem taskChunk_adminId (o : Option Int) (x : TaskRow) :
    taskApplyClauses (optC o .adminId) x = { x with admin_id := o.getD x.admin_id } := by
  cases o <;> rfl

theorem taskChunk_title (o : Option String) (x : TaskRow) :
    taskApplyClauses (optC o .title) x = { x with title := o.getD x.title } := by
  cases o <;> rfl

theorem taskChunk_description (o : Option String) (x : TaskRow) :
    taskApplyClauses (optC o .description) x
      = { x with description := (o.map some).getD x.description } := by
  cases o <;> rfl

theorem taskChunk_status (o : Option String) (x : TaskRow) :
    taskApplyClauses (optC o .status) x = { x with status := o.getD x.status } := by
  cases o <;> rfl

theorem taskChunk_priority (o : Option String) (x : TaskRow) :
    taskApplyClauses (optC o .priority) x = { x with priority := o.getD x.priority } := by
  cases o <;> rfl

theorem taskChunk_dueDate (o : Option Nat) (x : TaskRow) :
    taskApplyClauses (optC o .dueDate) x
      = { x with duedate := (o.map some).getD x.duedate } := by
  cases o <;> rfl

/-- Applying the full task `SET` list realises exactly the spec-side partial
update. -/
theorem taskApply_spec (req : UpdateTaskRequest) (now : Nat) (r : TaskRow) :
    taskApplyClauses (taskClauseList req now) r = taskUpdateSpecRow req now r := by
  simp only [taskClauseList, List.append_assoc, taskApplyClauses_append,
    taskChunk_updatedAt, taskChunk_assignedTo, taskChunk_adminId, taskChunk_title,
    taskChunk_description, taskChunk_status, taskChunk_priority, taskChunk_dueDate]
  rfl

theorem attendanceApplyClauses_append (cs1 cs2 : List AttendanceClause)
    (r : AttendanceRow) :
    attendanceApplyClauses (cs1 ++ cs2) r
      = attendanceApplyClauses cs2 (attendanceApplyClauses cs1 r) :=
  List.foldl_append ..

theorem attendanceChunk_updatedAt (v : Nat) (x : AttendanceRow) :
    attendanceApplyClauses [.updatedAt v] x = { x with updated_at := v } := rfl

theorem attendanceChunk_userId (o : Option Int) (x : AttendanceRow) :
    attendanceApplyClauses (optC o .userId) x
      = { x with user_id := o.getD x.user_id } := by
  cases o <;> rfl

theorem attendanceChunk_date (o : Option Nat) (x : AttendanceRow) :
    attendanceApplyClauses (optC o .date) x = { x with date := o.getD x.date } := by
  cases o <;> rfl

theorem attendanceChunk_inTime (o : Option Nat) (x : AttendanceRow) :
    attendanceApplyClauses (optC o .inTime) x = { x with intime := o.getD x.intime } := by
  cases o <;> rfl

theorem attendanceChunk_outTime (o : Option Nat) (x : AttendanceRow) :
    attendanceApplyClauses [.outTime o] x = { x with outtime := o } := rfl

theorem attendanceChunk_status (o : Option String) (x : AttendanceRow) :
    attendanceApplyClauses (optC o .status) x = { x with status := o.getD x.status } := by
  cases o <;> rfl

/-- Applying the full attendance `SET` list: supplied fields change and
`outtime` is overwritten with the request value (NULL when absent). -/
theorem attendanceApply_spec (req : UpdateAttendanceRequest) (now : Nat)
    (r : AttendanceRow) :
    attendanceApplyClauses (attendanceClauseList req now) r
      = attendanceUpdateSpecRow req now r := by
  simp only [attendanceClauseList, List.append_assoc, attendanceApplyClauses_append,
    attendanceChunk_updatedAt, attendanceChunk_userId, attendanceChunk_date,
    attendanceChunk_inTime, attendanceChunk_outTime, attendanceChunk_status]
  rfl

theorem salaryApplyClauses_append (cs1 cs2 : List SalaryClause) (r : SalaryRow) :
    salaryApplyClauses (cs1 ++ cs2) r = salaryApplyClauses cs2 (salaryApplyClauses cs1 r) :=
  List.foldl_append ..

theorem salaryChunk_updatedAt (v : Nat) (x : SalaryRow) :
    salaryApplyClauses [.updatedAt v] x = { x with updated_at := v } := rfl

theorem salaryChunk_amount (o : Option Int) (x : SalaryRow) :
    salaryApplyClauses (optC o .amount) x = { x with amount := o.getD x.amount } := by
  cases o <;> rfl

theorem salaryChunk_userId (o : Option Int) (x : SalaryRow) :
    salaryApplyClauses (optC o .userId) x = { x with user_id := o.getD x.user_id } := by
  cases o <;> rfl

theorem salaryChunk_adminId (o : Option Int) (x : SalaryRow) :
    salaryApplyClauses (optC o .adminId) x = { x with admin_id := o.getD x.admin_id } := by
  cases o <;> rfl

theorem salaryChunk_updaterAdminId (o : Option Int) (x : SalaryRow) :
    salaryApplyClauses (optC o .updaterAdminId) x
      = { x with updateradminid := (o.map some).getD x.updateradminid } := by
  cases o <;> rfl

theorem salaryChunk_payDate (o : Option Nat) (x : SalaryRow) :
    salaryApplyClauses (optC o .payDate) x = { x with pay_date := o.getD x.pay_date } := by
  cases o <;> rfl

theorem salaryChunk_currency (o : Option String) (x : SalaryRow) :
    salaryApplyClauses (optC o .currency) x = { x with currency := o.getD x.currency } := by
  cases o <;> rfl

theorem salaryChunk_status (o : Option String) (x : SalaryRow) :
    salaryApplyClauses (optC o .status) x = { x with status := o.getD x.status } := by
  cases o <;> rfl

/-- Applying the full salary `SET` list realises exactly the spec-side partial
update. -/
theorem salaryApply_spec (req : UpdateSalaryRequest) (now : Nat) (r : SalaryRow) :
    salaryApplyClauses (salaryClauseList req now) r = salaryUpdateSpecRow req now r := by
  simp only [salaryClauseList, List.append_assoc, salaryApplyClauses_append,
    salaryChunk_updatedAt, salaryChunk_amount, salaryChunk_userId, salaryChunk_adminId,
    salaryChunk_updaterAdminId, salaryChunk_payDate, salaryChunk_currency,
    salaryChunk_status]
  rfl

theorem bonusApplyClauses_append (cs1 cs2 : List BonusClause) (r : BonusRow) :
    bonusApplyClauses (cs1 ++ cs2) r = bonusApplyClauses cs2 (bonusApplyClauses cs1 r) :=
  List.foldl_append ..

theorem bonusChunk_updatedAt (v : Nat) (x : BonusRow) :
    bonusApplyClauses [.updatedAt v] x = { x with updated_at := v } := rfl

theorem bonusChunk_superAdminId (o : Option Int) (x : BonusRow) :
    bonusApplyClauses (optC o .superAdminId) x
      = { x with superadminid := (o.map some).getD x.superadminid } := by
  cases o <;> rfl

theorem bonusChunk_userId (o : Option Int) (x : BonusRow) :
    bonusApplyClauses (optC o .userId) x = { x with user_id := o.getD x.user_id } := by
  cases o <;> rfl

theorem bonusChunk_amount (o : Option Int) (x : BonusRow) :
    bonusApplyClauses (optC o .amount) x = { x with amount := o.getD x.amount } := by
  cases o <;> rfl

theorem bonusChunk_currency (o : Option String) (x : BonusRow) :
    bonusApplyClauses (optC o .currency) x = { x with currency := o.getD x.currency } := by
  cases o <;> rfl

theorem bonusChunk_reason (o : Option String) (x : BonusRow) :
    bonusApplyClauses (optC o .reason) x
      = { x with reason := (o.map some).getD x.reason } := by
  cases o <;> rfl

/-- Applying the full bonus `SET` list realises exactly the spec-side partial
update. -/
theorem bonusApply_spec (req : UpdateBonusRequest) (now : Nat) (r : BonusRow) :
    bonusApplyClauses (bonusClauseList req now) r = bonusUpdateSpecRow req now r := by
  simp only [bonusClauseList, List.append_assoc, bonusApplyClauses_append,
    bonusChunk_updatedAt, bonusChunk_superAdminId, bonusChunk_userId,
    bonusChunk_amount, bonusChunk_currency, bonusChunk_reason]
  rfl

theorem fileApplyClauses_append (cs1 cs2 : List FileClause) (r : FileRow) :
    fileApplyClauses (cs1 ++ cs2) r = fileApplyClauses cs2 (fileApplyClauses cs1 r) :=
  List.foldl_append ..

theorem fileChunk_updatedAt (v : Nat) (x : FileRow) :
    fileApplyClauses [.updatedAt v] x = { x with updated_at := v } := rfl

theorem fileChunk_name (o : Option String) (x : FileRow) :
    fileApplyClauses (optC o .name) x = { x with name := o.getD x.name } := by
  cases o <;> rfl

theorem fileChunk_taskId (o : Option Int) (x : FileRow) :
    fileApplyClauses (optC o .taskId) x
      = { x with taskid := (o.map some).getD x.taskid } := by
  cases o <;> rfl

/-- Applying the full file `SET` list realises exactly the spec-side partial
update. -/
theorem fileApply_spec (req : UpdateFileRequest) (now : Nat) (r : FileRow) :
    fileApplyClauses (fileClauseList req now) r = fileUpdateSpecRow req now r := by
  simp only [fileClauseList, List.append_assoc, fileApplyClauses_append,
    fileChunk_updatedAt, fileChunk_name, fileChunk_taskId]
  rfl

/-- The head of a filtered list satisfies the filter predicate. -/
theorem head_filter_pred {p : α → Bool} {l : List α} {a : α}
    (h : (l.filter p).head? = some a) : p a = true := by
  cases hf : l.filter p with
  | nil => rw [hf] at h; cases h
  | cons x xs =>
    rw [hf] at h
    injection h with h2
    subst h2
    have hm : x ∈ List.filter p l := by
      rw [hf]
      exact List.mem_cons_self _ _
    exact (List.mem_filter.mp hm).2

/-- The embedded `ORDER BY k DESC` really sorts. -/
theorem sorted_sortDesc (k : α → Nat) (l : List α) :
    (sortDesc k l).Sorted (descBy k) :=
  List.sorted_insertionSort _ _

/-- The embedded `ORDER BY k1 DESC, k2 DESC` really sorts. -/
theorem sorted_sortDesc2 (k1 k2 : α → Nat) (l : List α) :
    (sortDesc2 k1 k2 l).Sorted (descBy2 k1 k2) :=
  List.sorted_insertionSort _ _

/-- `LIMIT`/`OFFSET` pages of a sorted list are sorted. -/
theorem sorted_take_drop {r : α → α → Prop} {l : List α} (h : l.Sorted r)
    (off lim : Nat) : ((l.drop off).take lim).Sorted r :=
  List.Pairwise.sublist ((List.take_sublist _ _).trans (List.drop_sublist _ _)) h

/-- Concatenating the pages `take L (drop (k*L) l)` for `k < n` recovers the
whole list, provided `n` pages suffice to cover it. -/
theorem flatMapPagesEq (L : Nat) :
    ∀ (n : Nat) (l : List α), l.length ≤ n * L →
      ((List.range n).flatMap (fun k => ((l.drop (k * L)).take L))) = l := by
  intro n
  induction n with
  | zero =>
    intro l h
    rw [Nat.zero_mul, Nat.le_zero] at h
    rw [List.length_eq_zero.mp h]
    rfl
  | succ n ih =>
    intro l h
    rw [List.range_succ_eq_map, List.flatMap_cons, List.flatMap_map]
    have hdrop : ∀ k : Nat, l.drop (Nat.succ k * L) = (l.drop L).drop (k * L) := by
      intro k
      rw [List.drop_drop, Nat.succ_mul, Nat.add_comm]
    have hlen : (l.drop L).length ≤ n * L := by
      rw [List.length_drop]
      have h2 := h
      rw [Nat.succ_mul] at h2
      omega
    have hbody : ((List.range n).flatMap fun k =>
        ((l.drop (Nat.succ k * L)).take L)) = l.drop L := by
      simp only [hdrop]
      exact ih (l.drop L) hlen
    rw [hbody]
    simp only [Nat.zero_mul, List.drop_zero]
    exact List.take_append_drop L l

/-! ## Claims -/

/-- C1 (counterexample): the attendance repository violates the frame claim.
The request supplies only `status` (one non-null optional field) and a valid
id, yet the executed update also changes the `outtime` column — a column NOT
supplied in the request — from `300` to NULL. -/
theorem C1_update_frame_counterexample :
    attendanceRepoUpdate
        [⟨1, 10, 100, 200, some 300, "present", 50, 50⟩]
        { id := 1, status := some "late" } 60
      = .ok [⟨1, 10, 100, 200, none, "late", 50, 60⟩]
    ∧ (⟨1, 10, 100, 200, none, "late", 50, 60⟩ : AttendanceRow).outtime
        ≠ (⟨1, 10, 100, 200, some 300, "present", 50, 50⟩ : AttendanceRow).outtime := by
  constructor
  · decide
  · decide

/-- C1 (amended): for the user, task, salary, bonus and file repositories a
successful `Update` changes exactly the supplied fields of the rows matching
the target id (`created_at` untouched, `updated_at` refreshed to now) and
leaves every other row unchanged; for the attendance repository the same
holds EXCEPT that `outtime` is always overwritten with the request value —
NULL when the request does not supply it. -/
theorem C1_update_frame :
    (∀ (db : List UserRow) (req : UpdateUserRequest) (now : Nat) db',
        userRepoUpdate db req now = .ok db' →
        db' = db.map (fun r => if r.id == req.id then userUpdateSpecRow req now r else r))
  ∧ (∀ (db : List TaskRow) (req : UpdateTaskRequest) (now : Nat) db',
        taskRepoUpdate db req now = .ok db' →
        db' = db.map (fun r => if r.id == req.id then taskUpdateSpecRow req now r else r))
  ∧ (∀ (db : List SalaryRow) (req : UpdateSalaryRequest) (now : Nat) db',
        salaryRepoUpdate db req now = .ok db' →
        db' = db.map (fun r => if r.id == req.id then salaryUpdateSpecRow req now r else r))
  ∧ (∀ (db : List BonusRow) (req : UpdateBonusRequest) (now : Nat) db',
        bonusRepoUpdate db req now = .ok db' →
        db' = db.map (fun r => if r.id == req.id then bonusUpdateSpecRow req now r else r))
  ∧ (∀ (db : List FileRow) (req : UpdateFileRequest) (now : Nat) db',
        fileRepoUpdate db req now = .ok db' →
        db' = db.map (fun r => if r.id == req.id then fileUpdateSpecRow req now r else r))
  ∧ (∀ (db : List AttendanceRow) (req : UpdateAttendanceRequest) (now : Nat) db',
        attendanceRepoUpdate db req now = .ok db' →
        db' = db.map (fun r => if r.id == req.id then attendanceUpdateSpecRow req now r else r)) := by
  refine ⟨?_, ?_, ?_, ?_, ?_, ?_⟩
  · intro db req now db' h
    simp only [userRepoUpdate] at h
    split at h
    · cases h
    · split at h
      · cases h
      next cs heq =>
        split at h
        · cases h
        · split at h
          · cases h
          · injection h with h2
            subst h2
            rw [userBuildClauses_ok heq]
            simp only [userApply_spec]
  · intro db req now db' h
    simp only [taskRepoUpdate] at h
    split at h
    · cases h
    · split at h
      · cases h
      · split at h
        · cases h
        · injection h with h2
          subst h2
          simp only [taskApply_spec]
  · intro db req now db' h
    simp only [salaryRepoUpdate] at h
    split at h
    · cases h
    · split at h
      · cases h
      · split at h
        · cases h
        · injection h with h2
          subst h2
          simp only [salaryApply_spec]
  · intro db req now db' h
    simp only [bonusRepoUpdate] at h
    split at h
    · cases h
    · split at h
      · cases h
      · split at h
        · cases h
        · injection h with h2
          subst h2
          simp only [bonusApply_spec]
  · intro db req now db' h
    simp only [fileRepoUpdate] at h
    split at h
    · cases h
    · split at h
      · cases h
      · split at h
        · cases h
        · injection h with h2
          subst h2
          simp only [fileApply_spec]
  · intro db req now db' h
    simp only [attendanceRepoUpdate] at h
    split at h
    · cases h
    · split at h
      · cases h
      · split at h
        · cases h
        · injection h with h2
          subst h2
          simp only [attendanceApply_spec]

/-- C1 (witness): the amended frame theorem applied to a concrete one-row user
table and a bio-only update request. -/
theorem C1_update_frame_witness :
    ([⟨1, "Ann", "Lee", "user", "a@b.com", "+998901234567", none, some "hi", "H1", none, 40, 77⟩] :
        List UserRow)
      = ([⟨1, "Ann", "Lee", "user", "a@b.com", "+998901234567", none, none, "H1", none, 40, 40⟩] :
          List UserRow).map
          (fun r => if r.id == ({ id := 1, bio := some "hi" } : UpdateUserRequest).id
            then userUpdateSpecRow { id := 1, bio := some "hi" } 77 r else r) :=
  C1_update_frame.1 _ { id := 1, bio := some "hi" } 77 _ (by decide)

/-- C2 (counterexample): an attendance `Update` whose request has a valid id
and ZERO non-null optional fields does not fail with `NoFieldsToUpdate`; the
SQL update executes and mutates the row (`outtime` nulled, `updated_at`
refreshed). -/
theorem C2_no_fields_counterexample :
    attendanceRepoUpdate
        [⟨1, 10, 100, 200, some 300, "present", 50, 50⟩] { id := 1 } 60
      = .ok [⟨1, 10, 100, 200, none, "present", 50, 60⟩]
    ∧ attendanceRepoUpdate
        [⟨1, 10, 100, 200, some 300, "present", 50, 50⟩] { id := 1 } 60
      ≠ .error .noFieldsToUpdate := by
  constructor
  · decide
  · decide

/-- C2 (amended): for the user, task, salary, bonus and file repositories an
`Update` with a valid id and zero non-null optional fields fails with
`NoFieldsToUpdate` and mutates nothing; the attendance repository instead
always executes the update (its guard is dead code), nulling `outtime` and
refreshing `updated_at` on the matching row, or reporting `notFound`. -/
theorem C2_no_fields_to_update :
    (∀ (db : List UserRow) (id : Int) (now : Nat), id ≠ 0 →
        userRepoUpdate db { id := id } now = .error .noFieldsToUpdate)
  ∧ (∀ (db : List TaskRow) (id : Int) (now : Nat), id ≠ 0 →
        taskRepoUpdate db { id := id } now = .error .noFieldsToUpdate)
  ∧ (∀ (db : List SalaryRow) (id : Int) (now : Nat), id ≠ 0 →
        salaryRepoUpdate db { id := id } now = .error .noFieldsToUpdate)
  ∧ (∀ (db : List BonusRow) (id : Int) (now : Nat), id ≠ 0 →
        bonusRepoUpdate db { id := id } now = .error .noFieldsToUpdate)
  ∧ (∀ (db : List FileRow) (id : Int) (now : Nat), id ≠ 0 →
        fileRepoUpdate db { id := id } now = .error .noFieldsToUpdate)
  ∧ (∀ (db : List AttendanceRow) (id : Int) (now : Nat), id ≠ 0 →
        attendanceRepoUpdate db { id := id } now
          = (if db.countP (fun r => r.id == id) = 0 then .error (.notFound id)
             else .ok (db.map (fun r =>
                if r.id == id then { r with outtime := none, updated_at := now } else r)))) := by
  refine ⟨?_, ?_, ?_, ?_, ?_, ?_⟩
  · intro db id now hid
    rw [userRepoUpdate, if_neg hid]
    rfl
  · intro db id now hid
    rw [taskRepoUpdate, if_neg hid]
    rfl
  · intro db id now hid
    rw [salaryRepoUpdate, if_neg hid]
    rfl
  · intro db id now hid
    rw [bonusRepoUpdate, if_neg hid]
    rfl
  · intro db id now hid
    rw [fileRepoUpdate, if_neg hid]
    rfl
  · intro db id now hid
    rw [attendanceRepoUpdate, if_neg hid]
    rfl

/-- C2 (witness): the amended theorem applied to a concrete empty user table
and id 5. -/
theorem C2_no_fields_to_update_witness :
    userRepoUpdate ([] : List UserRow) { id := 5 } 9 = .error .noFieldsToUpdate :=
  C2_no_fields_to_update.1 [] 5 9 (by decide)

/-- C3 (counterexample): the attendance `List` page is NOT ordered by
`created_at` descending.  Row `A` (date 2, created_at 1) precedes row `B`
(date 1, created_at 2) because the query orders by `date DESC, intime DESC`. -/
theorem C3_list_order_counterexample :
    (attendanceRepoList
        [⟨1, 10, 2, 0, none, "present", 1, 1⟩, ⟨2, 10, 1, 0, none, "present", 2, 2⟩]
        10 0 [] "").items
      = [⟨1, 10, 2, 0, none, "present", 1, 1⟩, ⟨2, 10, 1, 0, none, "present", 2, 2⟩]
    ∧ ¬ List.Sorted (descBy (fun r : AttendanceRow => r.created_at))
        [⟨1, 10, 2, 0, none, "present", 1, 1⟩, ⟨2, 10, 1, 0, none, "present", 2, 2⟩] := by
  constructor
  · decide
  · decide

/-- C3 (amended): the user, task, salary, bonus and file `List` pages are
ordered by `created_at` descending; the attendance `List` page is ordered by
`date` descending with `intime` descending as tiebreak (not by
`created_at`). -/
theorem C3_list_order :
    (∀ (db : List UserRow) limit offset filter search,
        List.Sorted (descBy (fun r : UserRow => r.created_at))
          (userRepoList db limit offset filter search).items)
  ∧ (∀ (db : List TaskRow) limit offset filter search,
        List.Sorted (descBy (fun r : TaskRow => r.created_at))
          (taskRepoList db limit offset filter search).items)
  ∧ (∀ (db : List SalaryRow) limit offset filter search,
        List.Sorted (descBy (fun r : SalaryRow => r.created_at))
          (salaryRepoList db limit offset filter search).items)
  ∧ (∀ (db : List BonusRow) limit offset filter search,
        List.Sorted (descBy (fun r : BonusRow => r.created_at))
          (bonusRepoList db limit offset filter search).items)
  ∧ (∀ (db : List FileRow) limit offset filter search,
        List.Sorted (descBy (fun r : FileRow => r.created_at))
          (fileRepoList db limit offset filter search).items)
  ∧ (∀ (db : List AttendanceRow) limit offset filter search,
        List.Sorted (descBy2 (fun r : AttendanceRow => r.date) (fun r => r.intime))
          (attendanceRepoList db limit offset filter search).items) := by
  refine ⟨?_, ?_, ?_, ?_, ?_, ?_⟩ <;>
    intro db limit offset filter search <;>
    exact sorted_take_drop (List.sorted_insertionSort _ _) _ _

/-- C4 (counterexample): a well-formed token whose SIGNATURE is invalid makes
`jwt.Parse` return a validation error carrying only the SignatureInvalid flag;
`ParseJwtToken` then yields the generic wrapped error, NOT the
`TokenMalformed` sentinel as the claim states. -/
theorem C4_token_errors_counterexample :
    parseJwtToken { err := some (.validation validationErrorSignatureInvalid), claims := [] }
      = .genericErr
    ∧ parseJwtToken { err := some (.validation validationErrorSignatureInvalid), claims := [] }
      ≠ .malformedErr := by
  constructor
  · decide
  · decide

/-- C4 (amended): `ParseJwtToken` signals `TokenMalformed` exactly when the
Malformed validation flag is set; it signals `TokenExpiredOrInactive` exactly
when the Malformed flag is clear and the Expired or NotValidYet flag is set;
every other failure — including an invalid signature — yields the distinct
generic wrapped error. -/
theorem C4_token_errors :
    ∀ (flags : Nat) (claims : List (String × ClaimValue)),
      (parseJwtToken { err := some (.validation flags), claims := claims } = .malformedErr
        ↔ flags.land validationErrorMalformed ≠ 0)
    ∧ (parseJwtToken { err := some (.validation flags), claims := claims } = .expiredOrInactiveErr
        ↔ (flags.land validationErrorMalformed = 0 ∧
            flags.land (validationErrorExpired ||| validationErrorNotValidYet) ≠ 0))
    ∧ parseJwtToken { err := some .other, claims := claims } = .genericErr := by
  intro flags claims
  by_cases h1 : flags.land validationErrorMalformed = 0
  · by_cases h2 : flags.land (validationErrorExpired ||| validationErrorNotValidYet) = 0
    · exact ⟨by simp [parseJwtToken, h1, h2], by simp [parseJwtToken, h1, h2], rfl⟩
    · exact ⟨by simp [parseJwtToken, h1, h2], by simp [parseJwtToken, h1, h2], rfl⟩
  · exact ⟨by simp [parseJwtToken, h1], by simp [parseJwtToken, h1], rfl⟩

/-- C5 (confirmed): the `AuthContext` middleware never aborts — for every
request and every possible parse outcome it hands control to the downstream
handler; with no extractable token, and on every parse failure, it proceeds
without attaching any auth data (the request stays unauthenticated). -/
theorem C5_auth_middleware_never_aborts :
    (∀ (parse : String → TokenParseResult) (r : AuthRequest),
        ∃ d, authContext parse r = .proceed d)
  ∧ (∀ (parse : String → TokenParseResult) (r : AuthRequest),
        extractToken r = "" → authContext parse r = .proceed none)
  ∧ (∀ (parse : String → TokenParseResult) (r : AuthRequest),
        (∀ claims, parse (extractToken r) ≠ .ok claims) →
        authContext parse r = .proceed none) := by
  refine ⟨?_, ?_, ?_⟩
  · intro parse r
    simp only [authContext]
    split
    · exact ⟨none, rfl⟩
    · split
      · split
        · exact ⟨_, rfl⟩
        · exact ⟨none, rfl⟩
      · exact ⟨none, rfl⟩
      · exact ⟨none, rfl⟩
      · exact ⟨none, rfl⟩
  · intro parse r h
    simp only [authContext]
    rw [if_pos h]
  · intro parse r h
    simp only [authContext]
    split
    · rfl
    next hne =>
      split
      next claims heq => exact absurd heq (h claims)
      · rfl
      · rfl
      · rfl

/-- C5 (witness): the middleware theorem applied to a concrete request whose
header token fails to parse. -/
theorem C5_auth_middleware_witness :
    authContext (fun _ => .malformedErr) { queryToken := "abc", authHeader := "" }
      = .proceed none :=
  C5_auth_middleware_never_aborts.2.2 (fun _ => .malformedErr)
    { queryToken := "abc", authHeader := "" } (fun claims h => by cases h)

/-- C6 (confirmed): every repository `Get` with an empty filter map fails with
the filter-required error before any query is built, and a row returned by a
`Get` with a non-empty filter map satisfies every key as an equality
constraint. -/
theorem C6_get_filter :
    ((∀ db : List UserRow, userRepoGet db [] = .error .filterRequired)
      ∧ ∀ (db : List UserRow) params r, userRepoGet db params = .ok r →
          userMatches params r = true)
  ∧ ((∀ db : List TaskRow, taskRepoGet db [] = .error .filterRequired)
      ∧ ∀ (db : List TaskRow) params r, taskRepoGet db params = .ok r →
          taskMatches params r = true)
  ∧ ((∀ db : List AttendanceRow, attendanceRepoGet db [] = .error .filterRequired)
      ∧ ∀ (db : List AttendanceRow) params r, attendanceRepoGet db params = .ok r →
          attendanceMatches params r = true)
  ∧ ((∀ db : List SalaryRow, salaryRepoGet db [] = .error .filterRequired)
      ∧ ∀ (db : List SalaryRow) params r, salaryRepoGet db params = .ok r →
          salaryMatches params r = true)
  ∧ ((∀ db : List BonusRow, bonusRepoGet db [] = .error .filterRequired)
      ∧ ∀ (db : List BonusRow) params r, bonusRepoGet db params = .ok r →
          bonusMatches params r = true)
  ∧ ((∀ db : List FileRow, fileRepoGet db [] = .error .filterRequired)
      ∧ ∀ (db : List FileRow) params r, fileRepoGet db params = .ok r →
          fileMatches params r = true) := by
  refine ⟨⟨fun db => rfl, ?_⟩, ⟨fun db => rfl, ?_⟩, ⟨fun db => rfl, ?_⟩,
    ⟨fun db => rfl, ?_⟩, ⟨fun db => rfl, ?_⟩, ⟨fun db => rfl, ?_⟩⟩ <;>
  · intro db params r h
    simp only [userRepoGet, taskRepoGet, attendanceRepoGet, salaryRepoGet,
      bonusRepoGet, fileRepoGet] at h
    split at h
    · cases h
    · split at h
      next heq =>
        injection h with h2
        subst h2
        exact head_filter_pred heq
      · cases h

/-- C6 (witness): the theorem applied to a one-row user table filtered by id. -/
theorem C6_get_filter_witness :
    userMatches [("id", "1")]
      ⟨1, "Ann", "Lee", "user", "a@b.com", "+998901234567", none, none, "H1", none, 40, 40⟩
      = true :=
  C6_get_filter.1.2
    [⟨1, "Ann", "Lee", "user", "a@b.com", "+998901234567", none, none, "H1", none, 40, 40⟩]
    [("id", "1")]
    ⟨1, "Ann", "Lee", "user", "a@b.com", "+998901234567", none, none, "H1", none, 40, 40⟩
    (by decide)

/-- C7 (confirmed): for every repository `List`, the separately computed total
count applies EXACTLY the same equality-filter and search predicate as the
page query (the page differs only by order, limit and offset); consequently,
for a fixed filter and search, concatenating the pages `offset = k*limit`
for `k < n` (with `n` pages covering the matching rows) recovers every
matching row exactly once — so no item appears on two pages — and the summed
page lengths equal `totalCount`. -/
theorem C7_list_count_pagination :
    ((∀ (db : List UserRow) limit offset filter search,
        (userRepoList db limit offset filter search).total
            = (db.filter (userListPred filter search)).length
        ∧ (userRepoList db limit offset filter search).items
            = ((sortDesc (fun r => r.created_at)
                (db.filter (userListPred filter search))).drop offset).take limit)
      ∧ ∀ (db : List UserRow) limit filter search n,
          (db.filter (userListPred filter search)).length ≤ n * limit →
          ((List.range n).flatMap fun k =>
              (userRepoList db limit (k * limit) filter search).items)
              = sortDesc (fun r => r.created_at) (db.filter (userListPred filter search))
          ∧ ((List.range n).flatMap fun k =>
              (userRepoList db limit (k * limit) filter search).items).length
              = (userRepoList db limit 0 filter search).total)
  ∧ ((∀ (db : List TaskRow) limit offset filter search,
        (taskRepoList db limit offset filter search).total
            = (db.filter (taskListPred filter search)).length
        ∧ (taskRepoList db limit offset filter search).items
            = ((sortDesc (fun r => r.created_at)
                (db.filter (taskListPred filter search))).drop offset).take limit)
      ∧ ∀ (db : List TaskRow) limit filter search n,
          (db.filter (taskListPred filter search)).length ≤ n * limit →
          ((List.range n).flatMap fun k =>
              (taskRepoList db limit (k * limit) filter search).items)
              = sortDesc (fun r => r.created_at) (db.filter (taskListPred filter search))
          ∧ ((List.range n).flatMap fun k =>
              (taskRepoList db limit (k * limit) filter search).items).length
              = (taskRepoList db limit 0 filter search).total)
  ∧ ((∀ (db : List AttendanceRow) limit offset filter search,
        (attendanceRepoList db limit offset filter search).total
            = (db.filter (attendanceListPred filter search)).length
        ∧ (attendanceRepoList db limit offset filter search).items
            = ((sortDesc2 (fun r => r.date) (fun r => r.intime)
                (db.filter (attendanceListPred filter search))).drop offset).take limit)
      ∧ ∀ (db : List AttendanceRow) limit filter search n,
          (db.filter (attendanceListPred filter search)).length ≤ n * limit →
          ((List.range n).flatMap fun k =>
              (attendanceRepoList db limit (k * limit) filter search).items)
              = sortDesc2 (fun r => r.date) (fun r => r.intime)
                  (db.filter (attendanceListPred filter search))
          ∧ ((List.range n).flatMap fun k =>
              (attendanceRepoList db limit (k * limit) filter search).items).length
              = (attendanceRepoList db limit 0 filter search).total)
  ∧ ((∀ (db : List SalaryRow) limit offset filter search,
        (salaryRepoList db limit offset filter search).total
            = (db.filter (salaryListPred filter search)).length
        ∧ (salaryRepoList db limit offset filter search).items
            = ((sortDesc (fun r => r.created_at)
                (db.filter (salaryListPred filter search))).drop offset).take limit)
      ∧ ∀ (db : List SalaryRow) limit filter search n,
          (db.filter (salaryListPred filter search)).length ≤ n * limit →
          ((List.range n).flatMap fun k =>
              (salaryRepoList db limit (k * limit) filter search).items)
              = sortDesc (fun r => r.created_at) (db.filter (salaryListPred filter search))
          ∧ ((List.range n).flatMap fun k =>
              (salaryRepoList db limit (k * limit) filter search).items).length
              = (salaryRepoList db limit 0 filter search).total)
  ∧ ((∀ (db : List BonusRow) limit offset filter search,
        (bonusRepoList db limit offset filter search).total
            = (db.filter (bonusListPred filter search)).length
        ∧ (bonusRepoList db limit offset filter search).items
            = ((sortDesc (fun r => r.created_at)
                (db.filter (bonusListPred filter search))).drop offset).take limit)
      ∧ ∀ (db : List BonusRow) limit filter search n,
          (db.filter (bonusListPred filter search)).length ≤ n * limit →
          ((List.range n).flatMap fun k =>
              (bonusRepoList db limit (k * limit) filter search).items)
              = sortDesc (fun r => r.created_at) (db.filter (bonusListPred filter search))
          ∧ ((List.range n).flatMap fun k =>
              (bonusRepoList db limit (k * limit) filter search).items).length
              = (bonusRepoList db limit 0 filter search).total)
  ∧ ((∀ (db : List FileRow) limit offset filter search,
        (fileRepoList db limit offset filter search).total
            = (db.filter (fileListPred filter search)).length
        ∧ (fileRepoList db limit offset filter search).items
            = ((sortDesc (fun r => r.created_at)
                (db.filter (fileListPred filter search))).drop offset).take limit)
      ∧ ∀ (db : List FileRow) limit filter search n,
          (db.filter (fileListPred filter search)).length ≤ n * limit →
          ((List.range n).flatMap fun k =>
              (fileRepoList db limit (k * limit) filter search).items)
              = sortDesc (fun r => r.created_at) (db.filter (fileListPred filter search))
          ∧ ((List.range n).flatMap fun k =>
              (fileRepoList db limit (k * limit) filter search).items).length
              = (fileRepoList db limit 0 filter search).total) := by
  refine ⟨⟨fun db limit offset filter search => ⟨rfl, rfl⟩, ?_⟩,
    ⟨fun db limit offset filter search => ⟨rfl, rfl⟩, ?_⟩,
    ⟨fun db limit offset filter search => ⟨rfl, rfl⟩, ?_⟩,
    ⟨fun db limit offset filter search => ⟨rfl, rfl⟩, ?_⟩,
    ⟨fun db limit offset filter search => ⟨rfl, rfl⟩, ?_⟩,
    ⟨fun db limit offset filter search => ⟨rfl, rfl⟩, ?_⟩⟩
  · intro db limit filter search n hn
    have hlen : (sortDesc (fun r : UserRow => r.created_at)
        (db.filter (userListPred filter search))).length ≤ n * limit := by
      rw [sortDesc, List.length_insertionSort]
      exact hn
    exact ⟨flatMapPagesEq limit n _ hlen,
      (congrArg List.length (flatMapPagesEq limit n _ hlen)).trans
        (List.length_insertionSort _ _)⟩
  · intro db limit filter search n hn
    have hlen : (sortDesc (fun r : TaskRow => r.created_at)
        (db.filter (taskListPred filter search))).length ≤ n * limit := by
      rw [sortDesc, List.length_insertionSort]
      exact hn
    exact ⟨flatMapPagesEq limit n _ hlen,
      (congrArg List.length (flatMapPagesEq limit n _ hlen)).trans
        (List.length_insertionSort _ _)⟩
  · intro db limit filter search n hn
    have hlen : (sortDesc2 (fun r : AttendanceRow => r.date) (fun r => r.intime)
        (db.filter (attendanceListPred filter search))).length ≤ n * limit := by
      rw [sortDesc2, List.length_insertionSort]
      exact hn
    exact ⟨flatMapPagesEq limit n _ hlen,
      (congrArg List.length (flatMapPagesEq limit n _ hlen)).trans
        (List.length_insertionSort _ _)⟩
  · intro db limit filter search n hn
    have hlen : (sortDesc (fun r : SalaryRow => r.created_at)
        (db.filter (salaryListPred filter search))).length ≤ n * limit := by
      rw [sortDesc, List.length_insertionSort]
      exact hn
    exact ⟨flatMapPagesEq limit n _ hlen,
      (congrArg List.length (flatMapPagesEq limit n _ hlen)).trans
        (List.length_insertionSort _ _)⟩
  · intro db limit filter search n hn
    have hlen : (sortDesc (fun r : BonusRow => r.created_at)
        (db.filter (bonusListPred filter search))).length ≤ n * limit := by
      rw [sortDesc, List.length_insertionSort]
      exact hn
    exact ⟨flatMapPagesEq limit n _ hlen,
      (congrArg List.length (flatMapPagesEq limit n _ hlen)).trans
        (List.length_insertionSort _ _)⟩
  · intro db limit filter search n hn
    have hlen : (sortDesc (fun r : FileRow => r.created_at)
        (db.filter (fileListPred filter search))).length ≤ n * limit := by
      rw [sortDesc, List.length_insertionSort]
      exact hn
    exact ⟨flatMapPagesEq limit n _ hlen,
      (congrArg List.length (flatMapPagesEq limit n _ hlen)).trans
        (List.length_insertionSort _ _)⟩

/-- C7 (witness): the pagination theorem applied to a concrete three-row user
table with page size 2 and two pages. -/
theorem C7_list_count_pagination_witness :
    ((List.range 2).flatMap fun k =>
        (userRepoList
          [⟨1, "A", "A", "user", "e1", "p1", none, none, "h", none, 1, 0⟩,
           ⟨2, "B", "B", "user", "e2", "p2", none, none, "h", none, 2, 0⟩,
           ⟨3, "C", "C", "user", "e3", "p3", none, none, "h", none, 3, 0⟩]
          2 (k * 2) [] "").items)
      = sortDesc (fun r => r.created_at)
          (([⟨1, "A", "A", "user", "e1", "p1", none, none, "h", none, 1, 0⟩,
             ⟨2, "B", "B", "user", "e2", "p2", none, none, "h", none, 2, 0⟩,
             ⟨3, "C", "C", "user", "e3", "p3", none, none, "h", none, 3, 0⟩] :
            List UserRow).filter (userListPred [] ""))
    ∧ ((List.range 2).flatMap fun k =>
        (userRepoList
          [⟨1, "A", "A", "user", "e1", "p1", none, none, "h", none, 1, 0⟩,
           ⟨2, "B", "B", "user", "e2", "p2", none, none, "h", none, 2, 0⟩,
           ⟨3, "C", "C", "user", "e3", "p3", none, none, "h", none, 3, 0⟩]
          2 (k * 2) [] "").items).length
      = (userRepoList
          [⟨1, "A", "A", "user", "e1", "p1", none, none, "h", none, 1, 0⟩,
           ⟨2, "B", "B", "user", "e2", "p2", none, none, "h", none, 2, 0⟩,
           ⟨3, "C", "C", "user", "e3", "p3", none, none, "h", none, 3, 0⟩]
          2 0 [] "").total :=
  C7_list_count_pagination.1.2
    [⟨1, "A", "A", "user", "e1", "p1", none, none, "h", none, 1, 0⟩,
     ⟨2, "B", "B", "user", "e2", "p2", none, none, "h", none, 2, 0⟩,
     ⟨3, "C", "C", "user", "e3", "p3", none, none, "h", none, 3, 0⟩]
    2 [] "" 2 (by decide)

/-- C8 (code bug): a `PUT /v1/users/1` whose body contains only the
`password` field — exactly the spec scenario — does not return 200 with a
changed hash; the handler dereferences the absent `role` pointer and panics,
leaving the stored row untouched. -/
theorem C8_password_only_put_panics :
    updateUserHandler
        [⟨1, "Ann", "Lee", "user", "a@b.com", "+998901234567", none, none, "OLDHASH", none, 40, 40⟩]
        "1" { password := some "NewSecret1" } (fun pw => String.append "bcrypt:" pw) 77
      = (.panicked,
         [⟨1, "Ann", "Lee", "user", "a@b.com", "+998901234567", none, none, "OLDHASH", none, 40, 40⟩]) := by
  decide

/-- C9 (confirmed): the user update handler dereferences `*payload.Role`
unconditionally, so with a valid path id and a payload whose `role` field is
absent it panics (it never produces an HTTP response); and whenever `role`
IS present, the built repository request carries it, so the `role` column is
in the update column set even when no other field is supplied. -/
theorem C9_role_deref :
    (∀ (db : List UserRow) (idStr : String) (p : UpdateUserPayload)
        (hash : String → String) (now : Nat) (id : Int),
        parseGoInt (goTrimSpace idStr) = some id → 0 < id → p.role = none →
        updateUserHandler db idStr p hash now = (.panicked, db))
  ∧ (∀ (id : Int) (p : UpdateUserPayload) (roleStr : String)
        (hash : String → String) (now : Nat),
        p.role = some roleStr →
        UserClause.role (getUserRole roleStr)
          ∈ userClauseList (buildUpdateUserReq id p roleStr hash) now) := by
  constructor
  · intro db idStr p hash now id hparse hpos hrole
    simp only [updateUserHandler, hparse]
    rw [if_neg (not_le.mpr hpos), hrole]
  · intro id p roleStr hash now hrole
    simp [userClauseList, buildUpdateUserReq, optC]

/-- C9 (witness): the handler theorem applied to a concrete role-less payload,
and the column-set theorem applied to a role-only payload. -/
theorem C9_role_deref_witness :
    updateUserHandler ([] : List UserRow) "2" { password := some "x" } (fun s => s) 3
      = (.panicked, [])
    ∧ UserClause.role (getUserRole "admin")
        ∈ userClauseList (buildUpdateUserReq 2 { role := some "admin" } "admin" (fun s => s)) 3 :=
  ⟨C9_role_deref.1 [] "2" { password := some "x" } (fun s => s) 3 2 (by decide) (by decide) rfl,
   C9_role_deref.2 2 { role := some "admin" } "admin" (fun s => s) 3 rfl⟩

/-- Success condition of the modelled Go `strconv.Atoi`, in claim C10's
wording: the string is non-empty and consists of decimal digits after an
optional single leading sign. -/
theorem atoiOk_iff (cs : List Char) :
    atoiOk cs = true ↔
      (cs ≠ [] ∧ (cs.all goIsDigit = true ∨
        ∃ c rest, cs = c :: rest ∧ (c = '+' ∨ c = '-') ∧ rest ≠ [] ∧
          rest.all goIsDigit = true)) := by
  cases cs with
  | nil => simp [atoiOk]
  | cons c rest =>
    by_cases hc : c = '+' ∨ c = '-'
    · have hcb : (c = '+' || c = '-') = true := by
        rcases hc with h | h <;> simp [h]
      have hcd : goIsDigit c = false := by
        rcases hc with h | h <;> subst h <;> rfl
      simp [atoiOk, hcb, hcd, hc, List.isEmpty_iff]
      constructor
      · rintro ⟨hne, hall⟩
        exact ⟨c, rest, ⟨rfl, rfl⟩, hc, hne, hall⟩
      · rintro ⟨c1, r1, ⟨hceq, hreq⟩, hsgn, hne, hall⟩
        subst hreq
        exact ⟨hne, hall⟩
    · have h1 : ¬ c = '+' := fun h => hc (Or.inl h)
      have h2 : ¬ c = '-' := fun h => hc (Or.inr h)
      have hcb : (c = '+' || c = '-') = false := by simp [h1, h2]
      simp [atoiOk, hcb, h1, h2]

/-- C10 (confirmed): `ValidatePhoneNumber` accepts exactly the 13-character
strings starting with `+998` whose remaining 9 characters are a decimal
integer with an optional leading sign; in particular `"+998-12345678"`, whose
last 9 characters are not all digits, is accepted. -/
theorem C10_phone_validation :
    (∀ s : String, validatePhoneNumber s = true ↔ phoneSpecC10 s)
  ∧ validatePhoneNumber "+998-12345678" = true := by
  constructor
  · intro s
    unfold validatePhoneNumber phoneSpecC10
    by_cases h1 : s.length = 13
    · by_cases h2 : List.take 4 s.data = ['+', '9', '9', '8']
      · simp [h1, h2, atoiOk_iff, List.drop_eq_nil_iff]
      · simp [h1, h2]
    · simp [h1]
  · decide

end Argus
